import Mathlib

/-!
Verification of the AsistenteFinanciero repository
(`financial_assistant.py`, `financial_dashboard.py`, `detect_subs.py`).

The Python sources are shallowly embedded below.  Text is modelled as
`String`/`List Char`; monetary amounts (Python floats holding two-decimal
currency values) as `ℚ`; calendar dates either as an epoch-day `Int`
(the dashboard only uses day differences, minima and maxima of
timestamps) or as a `(year, month, day)` record (`detect_subs` only uses
the year-month of a date and chronological min/max).

Group order produced by `pandas.groupby` (sorted keys) is not modelled:
the embeddings enumerate groups in an order derived from the input list.
No statement below depends on the order of emitted report rows, only on
their membership and field values.
-/

namespace Asistente

/-! ### Characters and Python string primitives -/

/-- The lower-casing pairs of `str.lower` restricted to the characters that
occur in this repository's keyword tables, boilerplate strings and data:
ASCII letters and the Spanish accented letters. -/
def LOWER_MAP : List (Char × Char) :=
  [('A', 'a'), ('B', 'b'), ('C', 'c'), ('D', 'd'), ('E', 'e'), ('F', 'f'),
   ('G', 'g'), ('H', 'h'), ('I', 'i'), ('J', 'j'), ('K', 'k'), ('L', 'l'),
   ('M', 'm'), ('N', 'n'), ('O', 'o'), ('P', 'p'), ('Q', 'q'), ('R', 'r'),
   ('S', 's'), ('T', 't'), ('U', 'u'), ('V', 'v'), ('W', 'w'), ('X', 'x'),
   ('Y', 'y'), ('Z', 'z'),
   ('Á', 'á'), ('É', 'é'), ('Í', 'í'), ('Ó', 'ó'), ('Ú', 'ú'), ('Ü', 'ü'),
   ('Ñ', 'ñ')]

/-- Python `str.lower`, character by character, over the repo's alphabet. -/
def pyLower (c : Char) : Char :=
  (((LOWER_MAP.find? (fun p => p.fst == c)).map (fun p => p.snd)).getD c)

/-- Python `str.startswith` on character lists (first argument: the pattern). -/
def startsW : List Char → List Char → Bool
  | [], _ => true
  | _ :: _, [] => false
  | a :: as, b :: bs => a == b && startsW as bs

/-- Python `in` on strings: substring containment (first argument: the needle). -/
def containsSub : List Char → List Char → Bool
  | n, [] => n.isEmpty
  | n, c :: t => startsW n (c :: t) || containsSub n t

/-- Python whitespace test used by `str.split()` (restricted to the ASCII
whitespace characters that can occur in bank-statement text). -/
def isSpaceCh (c : Char) : Bool :=
  c == ' ' || c == '\t' || c == '\n' || c == '\r'

/-- Python `str.split()` with no separator: split on runs of whitespace,
discarding empty chunks. -/
def splitW : List Char → List (List Char)
  | [] => []
  | [c] => if isSpaceCh c then [] else [[c]]
  | c :: d :: t =>
    if isSpaceCh c then splitW (d :: t)
    else
      match splitW (d :: t) with
      | [] => [[c]]
      | w :: ws => if isSpaceCh d then [c] :: w :: ws else (c :: w) :: ws

/-- Python `" ".join(words)`. -/
def joinW : List (List Char) → List Char
  | [] => []
  | [w] => w
  | w :: ws => w ++ ' ' :: joinW ws

/-! ### `_normalize_description` (financial_assistant.py, lines 215-251) -/

/-- The ordered boilerplate strings stripped by `_normalize_description`
(the Python loop variable over this list is `prefix`). -/
def PREFIJOS : List String :=
  ["pago movil en", "pago móvil en", "pago mov en", "pago movil",
   "pago móvil", "pago mov.", "transaccion contactless en",
   "transacción contactless en", "transaccion contactless",
   "transacción contactless", "compra en", "compra", "recibo de",
   "recibo", "cargo de", "abono de"]

/-- The punctuation characters replaced by a space. -/
def PUNCT_TOKENS : List Char := [',', ';', ':', '.', '-', '*', '#', '!', '@']

/-- The boilerplate-stripping loop: strip the first matching entry of
`PREFIJOS` from the front, then stop (`break`); leave the text unchanged
when none matches. -/
def stripOnce (s : List Char) : List Char :=
  match PREFIJOS.find? (fun p => startsW p.data s) with
  | some p => s.drop p.data.length
  | none => s

/-- Replace every punctuation character of `PUNCT_TOKENS` by a space
(the chained `desc.replace(token, ' ')` calls). -/
def punctRep (s : List Char) : List Char :=
  s.map (fun c => if PUNCT_TOKENS.contains c then ' ' else c)

/-- The final `" ".join(desc.split())` step. -/
def collapseSpaces (s : List Char) : List Char := joinW (splitW s)

/-- The function `_normalize_description` on the underlying character list. -/
def normalizeL (s : List Char) : List Char :=
  collapseSpaces (punctRep (stripOnce (s.map pyLower)))

/-- The function `_normalize_description` (the non-string input branch returns `""` and
is not modelled: descriptions are text here). -/
def normalizeDesc (s : String) : String := ⟨normalizeL s.data⟩

/-! ### `CATEGORY_KEYWORDS` and `classify_transactions`
(financial_assistant.py, lines 37-212 and 312-341) -/

/-- The ordered category table (Python dicts preserve insertion order). -/
def CATEGORY_KEYWORDS : List (String × List String) :=
  [("finanzas",
    ["transferencia", "transfer", "bizum", "paypal", "comision",
     "comisiones", "cuota", "liquidacion contrato", "retirada", "ingreso",
     "nomina", "mantenimiento", "cajero", "atm", "reintegro", "pension",
     "abono", "devolucion"]),
   ("servicios",
    ["telefonica", "digi", "internet", "fibra", "vodafone", "orange",
     "jazztel", "electricidad", "luz", "endesa", "iberdrola", "naturgy",
     "agua", "gas", "factura"]),
   ("salud",
    ["medico", "sanitas", "seguro medico", "hospital", "farmacia",
     "parafarmacia", "dentista"]),
   ("viajes",
    ["hotel", "alojamiento", "airbnb", "booking", "vueling", "renfe",
     "iberia", "vuelo", "billete"]),
   ("compras",
    ["zara", "primark", "h&m", "pull&bear", "pull and bear", "bershka",
     "decathlon", "amazon", "corte ingles", "fnac", "ikea", "aliexpress",
     "game", "electronica", "farmacia", "farmac", "supercor"]),
   ("ocio",
    ["netflix", "spotify", "gym", "gimnasio", "deporte", "cine",
     "cinepolis", "teatro", "estanco", "tabaco", "loteria", "apuesta",
     "pub", "cerveceria", "discoteca"]),
   ("impuestos",
    ["impuesto", "tasas", "dgt", "multas", "hacienda", "seguridad social"]),
   ("restauracion",
    ["restaurante", "restaurant", "bar", "cafeteria", "cafetería", "cafe",
     "cerveceria", "cervecería", "pub", "pizzeria", "pizzería", "burger",
     "kebab", "sushi", "taberna", "marisqueria", "merendero",
     "hamburguesa", "bocateria", "bocatería", "comida rapida"]),
   ("transporte",
    ["repsol", "cepsa", "ballenoil", "bp", "terzo", "cedipsa",
     "estacion de servicio", "gasolinera", "combustible", "gasolina",
     "diesel", "peaje", "parking", "aparcamiento", "taxi", "uber", "bus",
     "metro", "tren"]),
   ("alimentacion",
    ["mercadona", "carrefour", "dia", "lidl", "eroski", "alcampo",
     "hiper", "supermercado", "super", "misuper", "condis", "caprabo",
     "panaderia", "pasteleria", "fruteria", "carniceria", "pescaderia",
     "alimentacion", "comestibles", "ultramarinos", "camper", "galileo"]),
   ("mascotas",
    ["veterinario", "pet", "mascotas"])]

/-- The inner keyword loop of `classify_transactions`: does some keyword of
the category occur in the normalized description? -/
def matchesCat (cat : String × List String) (desc : String) : Bool :=
  cat.snd.any (fun kw => containsSub kw.data desc.data)

/-- The category loop of `classify_transactions` for a non-positive amount:
the first category (in table order) with a matching keyword. -/
def firstKeywordCategory (desc : String) : Option String :=
  (CATEGORY_KEYWORDS.find? (fun cat => matchesCat cat desc)).map
    (fun cat => cat.fst)

/-- The per-transaction body of `classify_transactions` (lines 324-340):
positive amounts are assigned `finanzas` before any keyword is consulted;
otherwise the first matching category, with fallback `otros`. -/
def assignCategory (importe : ℚ) (desc : String) : String :=
  if 0 < importe then "finanzas"
  else
    match firstKeywordCategory desc with
    | some c => c
    | none => "otros"

/-- A parsed row of the assistant's dataframe, as
`classify_transactions` reads it: the raw `concepto` text and the
numeric `importe`. -/
structure ATx where
  concepto : String
  importe : ℚ
deriving DecidableEq, Repr

/-- The method `FinancialAssistant.classify_transactions`: raises a `RuntimeError` on
an empty dataframe (lines 319-320), otherwise returns the `categoria`
column, aligned one-to-one with the input rows. -/
def classify_transactions (txs : List ATx) : Except String (List String) :=
  if txs.isEmpty then
    Except.error "Primero hay que cargar los movimientos con load_transactions()."
  else
    Except.ok (txs.map (fun t => assignCategory t.importe (normalizeDesc t.concepto)))

/-! ### Shared numeric helpers -/

/-- Insert into an ascending list, keeping it ascending. -/
def insertSorted (x : Int) : List Int → List Int
  | [] => [x]
  | y :: t => if x ≤ y then x :: y :: t else y :: insertSorted x t

/-- Ascending insertion sort of integers (the effect of
`pandas.sort_values` on a column of day numbers). -/
def sortInts (l : List Int) : List Int := l.foldr insertSorted []

/-- The `pandas.Series.median` of a list of integer day gaps: sort, take the
middle element, or the average of the two middle elements (written as the
integer sum divided by 2 via `Rat.divInt`, the same rational). -/
def medianQ (l : List Int) : ℚ :=
  let s := sortInts l
  let n := s.length
  if n = 0 then 0
  else if n % 2 = 1 then ((s.getD (n / 2) 0 : Int) : ℚ)
  else Rat.divInt (s.getD (n / 2 - 1) 0 + s.getD (n / 2) 0) 2

/-- Python `int(x)`: truncation toward zero. -/
def pyInt (q : ℚ) : Int := if q < 0 then ⌈q⌉ else ⌊q⌋

/-- Day gaps between consecutive entries of a (sorted) date list:
`fechas.diff().dt.days.dropna()`. -/
def consecDiffs : List Int → List Int
  | [] => []
  | [_] => []
  | a :: b :: t => (b - a) :: consecDiffs (b :: t)

/-! ### The subscription-detection block of `main`
(financial_dashboard.py, lines 112-136) -/

/-- A row of `assistant.dataframe` as the dashboard's detection block reads
it: raw `concepto`, numeric `importe`, and `fecha_operacion` as an
epoch-day number (the block only takes day differences, minima and maxima
of the timestamps). -/
structure DTx where
  concepto : String
  importe : ℚ
  fecha : Int
deriving DecidableEq, Repr

/-- One row of the dashboard's `subs` table. -/
structure DashRow where
  suscripcion : String
  importeR : ℚ
  primerPago : Int
  ultimoPago : Int
  veces : Nat
  intervalo : Int
deriving DecidableEq, Repr

/-- The members of the `groupby(['concepto', 'importe'])` group of a key. -/
def dashGroup (txs : List DTx) (k : String × ℚ) : List DTx :=
  txs.filter (fun t => t.concepto == k.fst && t.importe == k.snd)

/-- The sorted date list of a group: `grupo['fecha_operacion'].sort_values()`. -/
def dashFechas (txs : List DTx) (k : String × ℚ) : List Int :=
  sortInts ((dashGroup txs k).map (fun t => t.fecha))

/-- The median day gap of a group (meaningful when the group has at least
two dates). -/
def dashMedian (txs : List DTx) (k : String × ℚ) : ℚ :=
  medianQ (consecDiffs (dashFechas txs k))

/-- The loop body of the dashboard's detection block for one group:
`some` row when `len(diffs) >= 2` and `25 <= med <= 35`, else nothing. -/
def dashRowFor (txs : List DTx) (k : String × ℚ) : Option DashRow :=
  if 2 ≤ (consecDiffs (dashFechas txs k)).length then
    if 25 ≤ dashMedian txs k ∧ dashMedian txs k ≤ 35 then
      some ⟨k.fst, k.snd, (dashFechas txs k).headD 0,
            (dashFechas txs k).getLastD 0, (dashGroup txs k).length,
            pyInt (dashMedian txs k)⟩
    else none
  else none

/-- The group keys of `df_sub.groupby(['concepto', 'importe'])`: the
distinct `(concepto, importe)` pairs of the input (`pandas` sorts them;
only membership matters below). -/
def dashKeys (txs : List DTx) : List (String × ℚ) :=
  (txs.map (fun t => (t.concepto, t.importe))).dedup

/-- The dashboard's subscription table: one row per group whose sorted
dates have at least two consecutive gaps with a median between 25 and 35
days. -/
def dashboardSubs (txs : List DTx) : List DashRow :=
  (dashKeys txs).filterMap (dashRowFor txs)

/-! ### `detect_subscriptions` (detect_subs.py, lines 22-93)
The file-reading, column-normalization and parsing steps (1-3's
date/float parsing) are ingestion plumbing; the embedding starts from the
parsed rows with a valid date, concept text and numeric amount. -/

/-- A calendar date `(year, month, day)`. -/
structure Date where
  y : Int
  m : Nat
  d : Nat
deriving DecidableEq, Repr

/-- Chronological comparison of calendar dates. -/
def dateLe (a b : Date) : Bool :=
  a.y < b.y || (a.y == b.y && (a.m < b.m || (a.m == b.m && a.d ≤ b.d)))

/-- The earliest date of a list (`grp[DATE_COL].min()`). -/
def minDateOf : List Date → Date
  | [] => ⟨0, 0, 0⟩
  | d :: t => t.foldl (fun a b => if dateLe b a then b else a) d

/-- The latest date of a list (`grp[DATE_COL].max()`). -/
def maxDateOf : List Date → Date
  | [] => ⟨0, 0, 0⟩
  | d :: t => t.foldl (fun a b => if dateLe a b then b else a) d

/-- The year-month of a date, as in the `year_month` period column. -/
def yearMonth (d : Date) : Int × Nat := (d.y, d.m)

/-- A parsed statement row as `detect_subscriptions` sees it after step 3:
date, concept text, numeric amount. -/
structure SRow where
  fecha : Date
  concepto : String
  importe : ℚ
deriving DecidableEq, Repr

/-- One row of the `detect_subscriptions` result. -/
structure SubsRow where
  concepto : String
  importe : ℚ
  firstDate : Date
  lastDate : Date
  count : Nat
deriving DecidableEq, Repr

/-- The `SUBSCRIPTION_KEYWORDS` list (detect_subs.py, lines 12-17). -/
def SUBSCRIPTION_KEYWORDS : List String :=
  ["digi", "movil", "telefonica", "fibra", "internet",
   "netflix", "youtube", "youtubepremium", "ytmusic", "spotify",
   "apple", "applecom", "dazn", "primevideo", "hbo", "disney",
   "suscripcion", "mensual"]

/-- Lower-case a string (`pagos[CONCEPT_COL].str.lower()`). -/
def lowerStr (s : String) : String := ⟨s.data.map pyLower⟩

/-- The keyword filter of step 4: the regex alternation of the (lowercase)
`SUBSCRIPTION_KEYWORDS` matches a lowercased concept exactly when one of
the keywords is a substring of it. -/
def containsAnyKeyword (s : String) : Bool :=
  SUBSCRIPTION_KEYWORDS.any (fun k => containsSub k.data s.data)

/-- Steps 3-4 of `detect_subscriptions`: keep negative amounts, lower-case
the concept, keep only concepts containing a subscription keyword. -/
def pagosOf (rows : List SRow) : List SRow :=
  ((rows.filter (fun r => r.importe < 0)).map
      (fun r => { r with concepto := lowerStr r.concepto })).filter
    (fun r => containsAnyKeyword r.concepto)

/-- The members of the `groupby(CONCEPT_COL)` group of a concept. -/
def subsGroup (pagos : List SRow) (c : String) : List SRow :=
  pagos.filter (fun r => r.concepto == c)

/-- The distinct year-months of a group (`grp["year_month"].unique()`;
only its length is used). -/
def subsMonths (pagos : List SRow) (c : String) : List (Int × Nat) :=
  ((subsGroup pagos c).map (fun r => yearMonth r.fecha)).dedup

/-- The loop body of step 5 for one concept: skip groups touching fewer
than 2 distinct months, otherwise summarize with the first member's
amount, the min/max dates, and the distinct-month count. -/
def subsRowFor (pagos : List SRow) (c : String) : Option SubsRow :=
  if (subsMonths pagos c).length < 2 then none
  else
    some ⟨c, (((subsGroup pagos c).head?).map (fun r => r.importe)).getD 0,
          minDateOf ((subsGroup pagos c).map (fun r => r.fecha)),
          maxDateOf ((subsGroup pagos c).map (fun r => r.fecha)),
          (subsMonths pagos c).length⟩

/-- The function `detect_subscriptions` from the parsed rows on: filter to keyword
expenses, return an empty table if nothing is left, group by exact
(lowercased) concept, summarize each group with at least 2 distinct
months, and finally keep the rows with `count >= 3`. -/
def detect_subscriptions (rows : List SRow) : List SubsRow :=
  if (pagosOf rows).isEmpty then []
  else
    ((((pagosOf rows).map (fun r => r.concepto)).dedup).filterMap
        (subsRowFor (pagosOf rows))).filter (fun r => 3 ≤ r.count)

/-! ### Concrete inputs used in witnesses and counterexamples -/

def exC10 : List SRow :=
  [⟨⟨2024, 1, 5⟩, "Netflix", mkRat (-999) 100⟩,
   ⟨⟨2024, 2, 5⟩, "Netflix", mkRat (-999) 100⟩,
   ⟨⟨2024, 3, 5⟩, "Netflix", mkRat (-999) 100⟩]

def exC2 : List DTx :=
  [⟨"recibo digi", mkRat (-999) 100, 0⟩, ⟨"recibo digi", mkRat (-999) 100, 30⟩,
   ⟨"recibo digi", mkRat (-1049) 100, 60⟩]

def exC2s : List SRow :=
  [⟨⟨2024, 1, 5⟩, "NETFLIX", mkRat (-999) 100⟩,
   ⟨⟨2024, 2, 5⟩, "Netflix", mkRat (-1049) 100⟩]

def exC3 : List DTx :=
  [⟨"seguro coche anual", -50, 0⟩, ⟨"seguro coche anual", -50, 90⟩,
   ⟨"seguro coche anual", -50, 180⟩]

def exC3w : List DTx :=
  [⟨"NETFLIX", mkRat (-1299) 100, 0⟩, ⟨"NETFLIX", mkRat (-1299) 100, 31⟩,
   ⟨"NETFLIX", mkRat (-1299) 100, 59⟩]

def exC8d : List DTx :=
  [⟨"NETFLIX", mkRat (-1299) 100, 0⟩, ⟨"NETFLIX", mkRat (-1299) 100, 31⟩]

def exC8s : List SRow :=
  [⟨⟨2024, 1, 5⟩, "Netflix", mkRat (-999) 100⟩,
   ⟨⟨2024, 2, 5⟩, "Netflix", mkRat (-999) 100⟩]

/-- Spec-side comparison definition (it follows the specification's words,
not the code): `representativeAmount` = mean of the member amounts rounded
to 2 decimals.  Used only to compare the code's reported amount against
the specified one. -/
def specMeanRound2 (l : List ℚ) : ℚ :=
  ((⌊(l.sum / (l.length : ℚ)) * 100 + 1 / 2⌋ : Int) : ℚ) / 100

def exC4s : List SRow :=
  [⟨⟨2024, 1, 5⟩, "Netflix", mkRat (-999) 100⟩,
   ⟨⟨2024, 2, 5⟩, "Netflix", mkRat (-999) 100⟩,
   ⟨⟨2024, 3, 5⟩, "Netflix", mkRat (-1049) 100⟩]

def exC4d : List DTx :=
  [⟨"netflix", mkRat (-999) 100, 0⟩, ⟨"netflix", mkRat (-999) 100, 30⟩,
   ⟨"netflix", mkRat (-1049) 100, 60⟩]

def exC4w : List DTx :=
  [⟨"Spotify", mkRat (-1099) 100, 5⟩, ⟨"Spotify", mkRat (-1099) 100, 35⟩,
   ⟨"Spotify", mkRat (-1099) 100, 65⟩]

def exC5 : List SRow :=
  [⟨⟨2024, 1, 5⟩, "Spotify ab", -10⟩, ⟨⟨2024, 1, 20⟩, "Spotify ab", -20⟩,
   ⟨⟨2024, 2, 5⟩, "Spotify ab", -10⟩, ⟨⟨2024, 3, 5⟩, "Spotify ab", -10⟩]

def exC5d : List DTx :=
  [⟨"HBO Max", mkRat (-599) 100, 10⟩, ⟨"HBO Max", mkRat (-599) 100, 40⟩,
   ⟨"HBO Max", mkRat (-599) 100, 71⟩]

def exC6 : List DTx :=
  [⟨"nomina empresa", 1200, 0⟩, ⟨"nomina empresa", 1200, 30⟩,
   ⟨"nomina empresa", 1200, 60⟩]

def exC6s : List SRow :=
  [⟨⟨2024, 1, 25⟩, "Nomina empresa", 1200⟩,
   ⟨⟨2024, 2, 25⟩, "Nomina empresa", 1200⟩,
   ⟨⟨2024, 3, 25⟩, "Nomina empresa", 1200⟩]

/-! ### Lemmas about the text primitives -/

theorem map_eq_self_of_fix {α : Type} (f : α → α) :
    ∀ (l : List α), (∀ c ∈ l, f c = c) → l.map f = l
  | [], _ => rfl
  | a :: t, h => by
    rw [List.map_cons, h a (List.mem_cons_self a t),
      map_eq_self_of_fix f t (fun c hc => h c (List.mem_cons_of_mem a hc))]

theorem pyLower_fix_on_lower : ∀ p ∈ LOWER_MAP, pyLower p.snd = p.snd := by
  decide

theorem pyLower_idem (c : Char) : pyLower (pyLower c) = pyLower c := by
  cases hfind : LOWER_MAP.find? (fun p => p.fst == c) with
  | none =>
    have he : pyLower c = c := by simp [pyLower, hfind]
    rw [he]
    exact he
  | some p =>
    have he : pyLower c = p.snd := by simp [pyLower, hfind]
    rw [he]
    exact pyLower_fix_on_lower p (List.mem_of_find?_eq_some hfind)

theorem splitW_cons_of_space {d : Char} (t : List Char)
    (hd : isSpaceCh d = true) : splitW (d :: t) = splitW t := by
  cases t with
  | nil => simp [splitW, hd]
  | cons e t' => simp [splitW, hd]

theorem splitW_cons_cons_space {c d : Char} (t : List Char)
    (hc : isSpaceCh c = false) (hd : isSpaceCh d = true) :
    splitW (c :: d :: t) = [c] :: splitW t := by
  have h := splitW_cons_of_space t hd
  cases hs : splitW t with
  | nil => simp [splitW, hc, hd, h, hs]
  | cons w ws => simp [splitW, hc, hd, h, hs]

theorem splitW_word_cons {c d : Char} (t : List Char)
    (hc : isSpaceCh c = false) (hd : isSpaceCh d = false) :
    splitW (c :: d :: t) =
      match splitW (d :: t) with
      | [] => [[c]]
      | w :: ws => (c :: w) :: ws := by
  cases hs : splitW (d :: t) with
  | nil => simp [splitW, hc, hd, hs]
  | cons w ws => simp [splitW, hc, hd, hs]

theorem splitW_single_word (w : List Char) (hne : w ≠ [])
    (hsf : ∀ c ∈ w, isSpaceCh c = false) : splitW w = [w] := by
  induction w with
  | nil => exact absurd rfl hne
  | cons a t ih =>
    cases t with
    | nil => simp [splitW, hsf a (List.mem_cons_self a [])]
    | cons b t' =>
      rw [splitW_word_cons t' (hsf a (List.mem_cons_self _ _))
            (hsf b (List.mem_cons_of_mem a (List.mem_cons_self _ _)))]
      rw [ih (by simp) (fun c hc => hsf c (List.mem_cons_of_mem a hc))]

theorem splitW_append_word (w r : List Char) (hne : w ≠ [])
    (hsf : ∀ c ∈ w, isSpaceCh c = false) :
    splitW (w ++ ' ' :: r) = w :: splitW r := by
  induction w with
  | nil => exact absurd rfl hne
  | cons a t ih =>
    cases t with
    | nil =>
      exact splitW_cons_cons_space r (hsf a (List.mem_cons_self _ _)) (by decide)
    | cons b t' =>
      have hcc : (a :: b :: t') ++ ' ' :: r = a :: b :: (t' ++ ' ' :: r) := rfl
      rw [hcc, splitW_word_cons (t' ++ ' ' :: r) (hsf a (List.mem_cons_self _ _))
            (hsf b (List.mem_cons_of_mem a (List.mem_cons_self _ _)))]
      have ih2 : splitW (b :: (t' ++ ' ' :: r)) = (b :: t') :: splitW r :=
        ih (by simp) (fun c hc => hsf c (List.mem_cons_of_mem a hc))
      rw [ih2]

theorem splitW_joinW (ws : List (List Char))
    (h : ∀ w ∈ ws, w ≠ [] ∧ ∀ c ∈ w, isSpaceCh c = false) :
    splitW (joinW ws) = ws := by
  induction ws with
  | nil => rfl
  | cons w ws' ih =>
    cases ws' with
    | nil =>
      exact splitW_single_word w (h w (List.mem_cons_self _ _)).1
        (h w (List.mem_cons_self _ _)).2
    | cons w2 ws'' =>
      have hj : joinW (w :: w2 :: ws'') = w ++ ' ' :: joinW (w2 :: ws'') := rfl
      rw [hj, splitW_append_word w _ (h w (List.mem_cons_self _ _)).1
            (h w (List.mem_cons_self _ _)).2,
          ih (fun v hv => h v (List.mem_cons_of_mem w hv))]

theorem splitW_ok (s : List Char) :
    ∀ w ∈ splitW s, w ≠ [] ∧ ∀ c ∈ w, (isSpaceCh c = false ∧ c ∈ s) := by
  induction s using splitW.induct with
  | case1 => intro w hw; simp [splitW] at hw
  | case2 c hc => intro w hw; simp [splitW, hc] at hw
  | case3 c hc =>
    intro w hw
    have hcf : isSpaceCh c = false := Bool.not_eq_true _ ▸ eq_false_of_ne_true hc
    simp [splitW, hcf] at hw
    subst hw
    refine ⟨by simp, fun x hx => ?_⟩
    rcases List.mem_singleton.mp hx with rfl
    exact ⟨hcf, List.mem_singleton.mpr rfl⟩
  | case4 c d t hc ih =>
    intro w hw
    rw [splitW_cons_of_space (d :: t) hc] at hw
    rcases ih w hw with ⟨h1, h2⟩
    exact ⟨h1, fun x hx => ⟨(h2 x hx).1, List.mem_cons_of_mem c (h2 x hx).2⟩⟩
  | case5 c d t hc hs ih =>
    intro w hw
    have hcf : isSpaceCh c = false := eq_false_of_ne_true hc
    simp [splitW, hcf, hs] at hw
    subst hw
    refine ⟨by simp, fun x hx => ?_⟩
    rcases List.mem_singleton.mp hx with rfl
    exact ⟨hcf, List.mem_cons_self _ _⟩
  | case6 c d t hc w0 ws0 hs hd ih =>
    intro w hw
    have hcf : isSpaceCh c = false := eq_false_of_ne_true hc
    simp [splitW, hcf, hs, hd] at hw
    rcases hw with hw | hw
    · subst hw
      refine ⟨by simp, fun x hx => ?_⟩
      rcases List.mem_singleton.mp hx with rfl
      exact ⟨hcf, List.mem_cons_self _ _⟩
    · have hw' : w ∈ splitW (d :: t) := by rw [hs]; exact List.mem_cons.mpr hw
      rcases ih w hw' with ⟨h1, h2⟩
      exact ⟨h1, fun x hx => ⟨(h2 x hx).1, List.mem_cons_of_mem c (h2 x hx).2⟩⟩
  | case7 c d t hc w0 ws0 hs hd ih =>
    intro w hw
    have hcf : isSpaceCh c = false := eq_false_of_ne_true hc
    have hdf : isSpaceCh d = false := eq_false_of_ne_true hd
    simp [splitW, hcf, hdf, hs] at hw
    rcases hw with hw | hw
    · subst hw
      have hm : w0 ∈ splitW (d :: t) := by rw [hs]; exact List.mem_cons_self _ _
      rcases ih w0 hm with ⟨_, h2⟩
      refine ⟨by simp, fun x hx => ?_⟩
      rcases List.mem_cons.mp hx with rfl | hx
      · exact ⟨hcf, List.mem_cons_self _ _⟩
      · exact ⟨(h2 x hx).1, List.mem_cons_of_mem c (h2 x hx).2⟩
    · have hm : w ∈ splitW (d :: t) := by rw [hs]; exact List.mem_cons_of_mem w0 hw
      rcases ih w hm with ⟨h1, h2⟩
      exact ⟨h1, fun x hx => ⟨(h2 x hx).1, List.mem_cons_of_mem c (h2 x hx).2⟩⟩

theorem mem_joinW (ws : List (List Char)) (c : Char) (hc : c ∈ joinW ws) :
    c = ' ' ∨ ∃ w ∈ ws, c ∈ w := by
  induction ws with
  | nil => simp [joinW] at hc
  | cons w ws' ih =>
    cases ws' with
    | nil => exact Or.inr ⟨w, List.mem_cons_self _ _, hc⟩
    | cons w2 ws'' =>
      have hj : joinW (w :: w2 :: ws'') = w ++ ' ' :: joinW (w2 :: ws'') := rfl
      rw [hj] at hc
      rcases List.mem_append.mp hc with h | h
      · exact Or.inr ⟨w, List.mem_cons_self _ _, h⟩
      · rcases List.mem_cons.mp h with h | h
        · exact Or.inl h
        · rcases ih h with h | ⟨w', hw', hcw'⟩
          · exact Or.inl h
          · exact Or.inr ⟨w', List.mem_cons_of_mem w hw', hcw'⟩

theorem mem_collapseSpaces (s : List Char) (c : Char)
    (hc : c ∈ collapseSpaces s) : c = ' ' ∨ c ∈ s := by
  rcases mem_joinW (splitW s) c hc with h | ⟨w, hw, hcw⟩
  · exact Or.inl h
  · exact Or.inr (((splitW_ok s w hw).2 c hcw).2)

theorem collapseSpaces_idem (s : List Char) :
    collapseSpaces (collapseSpaces s) = collapseSpaces s := by
  show joinW (splitW (joinW (splitW s))) = joinW (splitW s)
  rw [splitW_joinW (splitW s) (fun w hw =>
    ⟨(splitW_ok s w hw).1, fun c hc => ((splitW_ok s w hw).2 c hc).1⟩)]

theorem punctRep_eq_self (s : List Char)
    (h : ∀ c ∈ s, PUNCT_TOKENS.contains c = false) : punctRep s = s :=
  map_eq_self_of_fix _ s (fun c hc => by
    rw [h c hc, if_neg Bool.false_ne_true])

theorem mem_punctRep (s : List Char) (c : Char) (hc : c ∈ punctRep s) :
    c = ' ' ∨ (c ∈ s ∧ PUNCT_TOKENS.contains c = false) := by
  rcases List.mem_map.mp hc with ⟨d, hd, he⟩
  cases h : PUNCT_TOKENS.contains d with
  | true =>
    rw [h, if_pos rfl] at he
    exact Or.inl he.symm
  | false =>
    rw [h, if_neg Bool.false_ne_true] at he
    subst he
    exact Or.inr ⟨hd, h⟩

theorem stripOnce_subset (s : List Char) : ∀ c ∈ stripOnce s, c ∈ s := by
  unfold stripOnce
  cases hfind : PREFIJOS.find? (fun p => startsW p.data s) with
  | none => intro c hc; exact hc
  | some p => intro c hc; exact List.drop_subset _ _ hc

theorem normalizeL_chars (s : List Char) :
    ∀ c ∈ normalizeL s, pyLower c = c ∧ PUNCT_TOKENS.contains c = false := by
  intro c hc
  rcases mem_collapseSpaces _ c hc with h | h
  · subst h; exact ⟨by decide, by decide⟩
  · rcases mem_punctRep _ c h with h2 | ⟨h2, h3⟩
    · subst h2; exact ⟨by decide, by decide⟩
    · have h4 : c ∈ s.map pyLower := stripOnce_subset _ c h2
      rcases List.mem_map.mp h4 with ⟨d, _, he⟩
      exact ⟨by rw [← he]; exact pyLower_idem d, h3⟩

theorem normalizeL_idem_of_no_strip (s : List Char)
    (h : stripOnce (normalizeL s) = normalizeL s) :
    normalizeL (normalizeL s) = normalizeL s := by
  have hmap : (normalizeL s).map pyLower = normalizeL s :=
    map_eq_self_of_fix _ _ (fun c hc => (normalizeL_chars s c hc).1)
  have hpunct : punctRep (normalizeL s) = normalizeL s :=
    punctRep_eq_self _ (fun c hc => (normalizeL_chars s c hc).2)
  calc normalizeL (normalizeL s)
      = collapseSpaces (punctRep (stripOnce ((normalizeL s).map pyLower))) := rfl
    _ = collapseSpaces (normalizeL s) := by rw [hmap, h, hpunct]
    _ = normalizeL s := collapseSpaces_idem _

/-! ### Lemmas about the categorizer -/

theorem find?_first {α : Type} (p : α → Bool) :
    ∀ (l : List α) (i : Nat) (a₀ : α), i < l.length →
      p (l.getD i a₀) = true → (∀ j, j < i → p (l.getD j a₀) = false) →
      l.find? p = some (l.getD i a₀)
  | [], i, _, hi, _, _ => absurd hi (by simp)
  | a :: t, 0, a₀, _, hp, _ => by
    rw [List.getD_cons_zero] at hp ⊢
    rw [List.find?_cons_of_pos _ hp]
  | a :: t, i + 1, a₀, hi, hp, hj => by
    have ha : p a = false := by
      have h0 := hj 0 (Nat.succ_pos i)
      rwa [List.getD_cons_zero] at h0
    rw [List.getD_cons_succ] at hp ⊢
    rw [List.find?_cons_of_neg _ (by simp [ha])]
    exact find?_first p t i a₀ (by simpa using hi) hp
      (fun j hjlt => by
        have hs := hj (j + 1) (Nat.succ_lt_succ hjlt)
        rwa [List.getD_cons_succ] at hs)

/-! ### Lemmas about the two recurrence detectors -/

theorem consecDiffs_length : ∀ l : List Int, (consecDiffs l).length = l.length - 1
  | [] => rfl
  | [_] => rfl
  | a :: b :: t => by
    show (consecDiffs (b :: t)).length + 1 = (b :: t).length + 1 - 1
    rw [consecDiffs_length (b :: t)]
    simp

theorem length_insertSorted (x : Int) :
    ∀ l : List Int, (insertSorted x l).length = l.length + 1
  | [] => rfl
  | y :: t => by
    unfold insertSorted
    split
    · rfl
    · rw [List.length_cons, length_insertSorted x t]
      rfl

theorem length_sortInts : ∀ l : List Int, (sortInts l).length = l.length
  | [] => rfl
  | x :: t => by
    show (insertSorted x (sortInts t)).length = t.length + 1
    rw [length_insertSorted, length_sortInts t]

theorem dashFechas_length (txs : List DTx) (k : String × ℚ) :
    (dashFechas txs k).length = (dashGroup txs k).length := by
  unfold dashFechas
  rw [length_sortInts, List.length_map]

theorem dashRowFor_eq_some (txs : List DTx) (k : String × ℚ) (r : DashRow)
    (h : dashRowFor txs k = some r) :
    r.suscripcion = k.fst ∧ r.importeR = k.snd ∧
    r.veces = (dashGroup txs k).length ∧
    r.primerPago = (dashFechas txs k).headD 0 ∧
    r.ultimoPago = (dashFechas txs k).getLastD 0 ∧
    r.intervalo = pyInt (dashMedian txs k) ∧
    2 ≤ (consecDiffs (dashFechas txs k)).length ∧
    25 ≤ dashMedian txs k ∧ dashMedian txs k ≤ 35 := by
  unfold dashRowFor at h
  split at h
  case isTrue h2 =>
    split at h
    case isTrue h3 =>
      cases Option.some.inj h
      exact ⟨rfl, rfl, rfl, rfl, rfl, rfl, h2, h3.1, h3.2⟩
    case isFalse => exact absurd h (by simp)
  case isFalse => exact absurd h (by simp)

theorem mem_dashboardSubs (txs : List DTx) (r : DashRow)
    (h : r ∈ dashboardSubs txs) :
    dashRowFor txs (r.suscripcion, r.importeR) = some r := by
  rcases List.mem_filterMap.mp h with ⟨k, _, hk⟩
  rcases dashRowFor_eq_some txs k r hk with ⟨h1, h2, _⟩
  have he : (r.suscripcion, r.importeR) = k := by rw [h1, h2]
  rw [he]
  exact hk

theorem mem_dashGroup (txs : List DTx) (k : String × ℚ) (t : DTx)
    (h : t ∈ dashGroup txs k) :
    t ∈ txs ∧ t.concepto = k.fst ∧ t.importe = k.snd := by
  rcases List.mem_filter.mp h with ⟨h1, h2⟩
  have h34 : t.concepto = k.fst ∧ t.importe = k.snd := by simpa using h2
  exact ⟨h1, h34.1, h34.2⟩

theorem subsRowFor_eq_some (pagos : List SRow) (c : String) (r : SubsRow)
    (h : subsRowFor pagos c = some r) :
    r.concepto = c ∧
    r.importe = (((subsGroup pagos c).head?).map (fun x => x.importe)).getD 0 ∧
    r.firstDate = minDateOf ((subsGroup pagos c).map (fun x => x.fecha)) ∧
    r.lastDate = maxDateOf ((subsGroup pagos c).map (fun x => x.fecha)) ∧
    r.count = (subsMonths pagos c).length ∧
    2 ≤ (subsMonths pagos c).length := by
  unfold subsRowFor at h
  split at h
  case isTrue => exact absurd h (by simp)
  case isFalse h2 =>
    cases Option.some.inj h
    exact ⟨rfl, rfl, rfl, rfl, rfl, Nat.le_of_not_lt h2⟩

theorem mem_detect_subscriptions (rows : List SRow) (r : SubsRow)
    (h : r ∈ detect_subscriptions rows) :
    subsRowFor (pagosOf rows) r.concepto = some r ∧ 3 ≤ r.count := by
  unfold detect_subscriptions at h
  split at h
  · exact absurd h (by simp)
  · rcases List.mem_filter.mp h with ⟨hmem, hcount⟩
    rcases List.mem_filterMap.mp hmem with ⟨c, _, hc⟩
    have h1 := (subsRowFor_eq_some _ c r hc).1
    rw [h1]
    exact ⟨hc, of_decide_eq_true hcount⟩

theorem mem_pagosOf (rows : List SRow) (r : SRow) (h : r ∈ pagosOf rows) :
    containsAnyKeyword r.concepto = true ∧ r.importe < 0 := by
  unfold pagosOf at h
  rcases List.mem_filter.mp h with ⟨h1, h2⟩
  refine ⟨h2, ?_⟩
  rcases List.mem_map.mp h1 with ⟨r0, hr0, he⟩
  rcases List.mem_filter.mp hr0 with ⟨_, h3⟩
  have himp : r.importe = r0.importe := by rw [← he]
  rw [himp]
  exact of_decide_eq_true h3

theorem mem_subsGroup (pagos : List SRow) (c : String) (r : SRow)
    (h : r ∈ subsGroup pagos c) : r ∈ pagos ∧ r.concepto = c := by
  rcases List.mem_filter.mp h with ⟨h1, h2⟩
  exact ⟨h1, by simpa using h2⟩

theorem subsMonths_le_group (pagos : List SRow) (c : String) :
    (subsMonths pagos c).length ≤ (subsGroup pagos c).length := by
  unfold subsMonths
  calc (((subsGroup pagos c).map (fun r => yearMonth r.fecha)).dedup).length
      ≤ ((subsGroup pagos c).map (fun r => yearMonth r.fecha)).length :=
        (List.dedup_sublist _).length_le
    _ = (subsGroup pagos c).length := List.length_map _ _

/-! ## Claim C1 — categorization order -/

/-- C1, counterexample: the normalized description "netflix" matches the
keyword table (first matching category: "ocio"), yet a positive-amount
transaction with that description is assigned "finanzas" by the
amount-first branch, not the matching category. -/
theorem classify_positive_ignores_keywords :
    firstKeywordCategory (normalizeDesc "NETFLIX") = some "ocio" ∧
    assignCategory 5 (normalizeDesc "NETFLIX") = "finanzas" ∧
    ("finanzas" : String) ≠ "ocio" := by
  decide

/-- C1, amended: the keyword table is consulted only for transactions with
amount ≤ 0; for those, the first category (in declared table order) with a
matching keyword wins; transactions with amount > 0 are assigned
"finanzas" unconditionally, before any keyword is examined. -/
theorem assignCategory_first_match_nonpositive :
    (∀ (q : ℚ) (d : String), 0 < q → assignCategory q d = "finanzas") ∧
    (∀ (q : ℚ) (d : String) (i : Nat), i < CATEGORY_KEYWORDS.length → q ≤ 0 →
      matchesCat (CATEGORY_KEYWORDS.getD i ("", [])) d = true →
      (∀ j, j < i → matchesCat (CATEGORY_KEYWORDS.getD j ("", [])) d = false) →
      assignCategory q d = (CATEGORY_KEYWORDS.getD i ("", [])).fst) := by
  constructor
  · intro q d hq
    unfold assignCategory
    rw [if_pos hq]
  · intro q d i hi hq hp hj
    unfold assignCategory
    rw [if_neg (not_lt.mpr hq)]
    unfold firstKeywordCategory
    rw [find?_first (fun cat => matchesCat cat d) CATEGORY_KEYWORDS i ("", []) hi hp hj]
    rfl

/-- Witness for C1: a non-positive Netflix charge lands in category index 5
("ocio"); a positive one is forced to "finanzas". -/
theorem assignCategory_first_match_nonpositive_witness :
    assignCategory 5 (normalizeDesc "NETFLIX") = "finanzas" ∧
    assignCategory (-5) (normalizeDesc "NETFLIX") =
      (CATEGORY_KEYWORDS.getD 5 ("", [])).fst :=
  ⟨assignCategory_first_match_nonpositive.1 5 _ (by norm_num),
   assignCategory_first_match_nonpositive.2 (-5) _ 5 (by decide) (by norm_num)
     (by decide) (by decide)⟩

/-! ## Claim C7 — normalization idempotence -/

/-- C7, counterexample: normalization strips at most one boilerplate
entry per call, so a second application can strip another one:
`normalize "compra compra" = "compra"` but `normalize "compra" = ""`. -/
theorem normalize_not_idempotent_cx :
    normalizeDesc (normalizeDesc "compra compra") ≠ normalizeDesc "compra compra" := by
  decide

/-- C7, amended: normalization is idempotent exactly on the texts whose
normalized form does not itself begin with a boilerplate entry: if the
stripping pass leaves `normalize t` unchanged, then
`normalize (normalize t) = normalize t` (in general a second application
may strip a further entry, as the counterexample shows). -/
theorem normalize_idem_of_no_strip (t : String)
    (h : stripOnce (normalizeDesc t).data = (normalizeDesc t).data) :
    normalizeDesc (normalizeDesc t) = normalizeDesc t :=
  congrArg String.mk (normalizeL_idem_of_no_strip t.data h)

/-- Witness for C7 at a real-shaped description. -/
theorem normalize_idem_of_no_strip_witness :
    stripOnce (normalizeDesc "Pago movil en MERCADONA, S.A.").data =
      (normalizeDesc "Pago movil en MERCADONA, S.A.").data ∧
    normalizeDesc (normalizeDesc "Pago movil en MERCADONA, S.A.") =
      normalizeDesc "Pago movil en MERCADONA, S.A." :=
  ⟨by decide, normalize_idem_of_no_strip _ (by decide)⟩

/-! ## Claim C9 — empty input -/

/-- C9, counterexample: `classify_transactions` raises a `RuntimeError` on
an empty dataframe instead of returning an empty categorization. -/
theorem classify_empty_raises_cx :
    classify_transactions ([] : List ATx) =
      Except.error "Primero hay que cargar los movimientos con load_transactions()." ∧
    classify_transactions ([] : List ATx) ≠ Except.ok ([] : List String) :=
  ⟨rfl, fun h => Except.noConfusion h⟩

/-- C9, amended: an empty transaction set yields empty outputs from both
recurrence detectors, but categorization raises a `RuntimeError` (the
empty dataframe is treated as "not loaded yet"). -/
theorem empty_input_behavior :
    detect_subscriptions ([] : List SRow) = [] ∧
    dashboardSubs ([] : List DTx) = [] ∧
    classify_transactions ([] : List ATx) =
      Except.error "Primero hay que cargar los movimientos con load_transactions()." :=
  ⟨rfl, rfl, rfl⟩

/-! ## Claim C10 — the provider-keyword filter of detect_subs -/

/-- C10: every row reported by `detect_subscriptions` has a (lowercased)
concept containing at least one of the `SUBSCRIPTION_KEYWORDS`; the
keyword filter is applied unconditionally before grouping. -/
theorem subs_keyword_mandatory (rows : List SRow) (r : SubsRow)
    (h : r ∈ detect_subscriptions rows) :
    containsAnyKeyword r.concepto = true := by
  rcases mem_detect_subscriptions rows r h with ⟨hrow, _⟩
  rcases subsRowFor_eq_some _ _ _ hrow with ⟨_, _, _, _, _, h2⟩
  have hg : subsGroup (pagosOf rows) r.concepto ≠ [] := by
    intro hnil
    have hz : (subsMonths (pagosOf rows) r.concepto).length = 0 := by
      unfold subsMonths
      rw [hnil]
      rfl
    omega
  rcases List.exists_mem_of_ne_nil _ hg with ⟨x, hx⟩
  rcases mem_subsGroup _ _ _ hx with ⟨hxp, hxc⟩
  have hk := (mem_pagosOf rows x hxp).1
  rwa [hxc] at hk


/-- Witness for C10 at a concrete detected subscription. -/
theorem subs_keyword_mandatory_witness :
    containsAnyKeyword
      (SubsRow.mk "netflix" (mkRat (-999) 100) ⟨2024, 1, 5⟩ ⟨2024, 3, 5⟩ 3).concepto = true :=
  subs_keyword_mandatory exC10 _ (by decide)

/-! ## Claim C2 — the grouping key of recurrence clustering -/


/-- C2, counterexample: three transactions share one description, but the
one with a different amount lands in a different `groupby` cluster, and
the 30-day pattern is consequently not reported at all. -/
theorem dash_amount_splits_clusters :
    (exC2.map (fun t => t.concepto)).dedup.length = 1 ∧
    dashGroup exC2 ("recibo digi", mkRat (-999) 100) =
      [⟨"recibo digi", mkRat (-999) 100, 0⟩, ⟨"recibo digi", mkRat (-999) 100, 30⟩] ∧
    dashGroup exC2 ("recibo digi", mkRat (-1049) 100) =
      [⟨"recibo digi", mkRat (-1049) 100, 60⟩] ∧
    dashboardSubs exC2 = [] := by
  decide


/-- C2, amended: in the dashboard's detection block two transactions lie in
the same cluster exactly when both their description and their amount
coincide (the `groupby` key is the pair); in `detect_subs` the grouping key
is the lowercased description alone. -/
theorem cluster_key_includes_amount :
    (∀ (txs : List DTx) (t u : DTx) (k k' : String × ℚ),
      t ∈ dashGroup txs k → u ∈ dashGroup txs k' →
      (k = k' ↔ (t.concepto = u.concepto ∧ t.importe = u.importe))) ∧
    (∀ (rows : List SRow) (t u : SRow) (c c' : String),
      t ∈ subsGroup (pagosOf rows) c → u ∈ subsGroup (pagosOf rows) c' →
      (c = c' ↔ t.concepto = u.concepto)) := by
  constructor
  · intro txs t u k k' ht hu
    rcases mem_dashGroup _ _ _ ht with ⟨_, ht1, ht2⟩
    rcases mem_dashGroup _ _ _ hu with ⟨_, hu1, hu2⟩
    constructor
    · intro he
      subst he
      exact ⟨ht1.trans hu1.symm, ht2.trans hu2.symm⟩
    · intro hp
      apply Prod.ext_iff.mpr
      constructor
      · rw [← ht1, hp.1, hu1]
      · rw [← ht2, hp.2, hu2]
  · intro rows t u c c' ht hu
    rcases mem_subsGroup _ _ _ ht with ⟨_, ht1⟩
    rcases mem_subsGroup _ _ _ hu with ⟨_, hu1⟩
    constructor
    · intro he
      subst he
      exact ht1.trans hu1.symm
    · intro hp
      rw [← ht1, hp, hu1]

/-- Witness for C2: the two equal-description, different-amount members of
the counterexample lie in distinct dashboard clusters; the two
`detect_subs` rows with different amounts share one cluster. -/
theorem cluster_key_includes_amount_witness :
    ((("recibo digi", mkRat (-999) 100) = (("recibo digi", mkRat (-1049) 100) : String × ℚ)) ↔
      ((("recibo digi") : String) = "recibo digi" ∧ mkRat (-999) 100 = mkRat (-1049) 100)) ∧
    ((("netflix" : String) = "netflix") ↔ (("netflix" : String) = "netflix")) :=
  ⟨cluster_key_includes_amount.1 exC2
      ⟨"recibo digi", mkRat (-999) 100, 0⟩ ⟨"recibo digi", mkRat (-1049) 100, 60⟩
      ("recibo digi", mkRat (-999) 100) ("recibo digi", mkRat (-1049) 100)
      (by decide) (by decide),
   cluster_key_includes_amount.2 exC2s
      ⟨⟨2024, 1, 5⟩, "netflix", mkRat (-999) 100⟩
      ⟨⟨2024, 2, 5⟩, "netflix", mkRat (-1049) 100⟩
      "netflix" "netflix" (by decide) (by decide)⟩

/-! ## Claim C3 — periodicity bands -/


/-- C3, counterexample: a cluster with regular 90-day gaps (median 90)
produces no report at all — there is no quarterly band in the code. -/
theorem quarterly_gaps_not_reported :
    dashMedian exC3 ("seguro coche anual", -50) = 90 ∧
    (consecDiffs (dashFechas exC3 ("seguro coche anual", -50))).length = 2 ∧
    dashboardSubs exC3 = [] := by
  decide


/-- C3, amended: the dashboard's detection block knows only the monthly
band: every emitted row comes from a cluster whose median gap lies in
[25, 35] (and its reported mean interval lies there too), and a cluster
whose median gap lies outside [25, 35] — including quarterly ≈ 90 and
annual ≈ 365 medians — contributes no row. -/
theorem dash_monthly_band_only :
    (∀ (txs : List DTx) (r : DashRow), r ∈ dashboardSubs txs →
      25 ≤ dashMedian txs (r.suscripcion, r.importeR) ∧
      dashMedian txs (r.suscripcion, r.importeR) ≤ 35 ∧
      25 ≤ r.intervalo ∧ r.intervalo ≤ 35) ∧
    (∀ (txs : List DTx) (k : String × ℚ),
      ¬(25 ≤ dashMedian txs k ∧ dashMedian txs k ≤ 35) →
      (dashboardSubs txs).filter
        (fun r => r.suscripcion == k.fst && r.importeR == k.snd) = []) := by
  constructor
  · intro txs r hr
    have hrow := mem_dashboardSubs txs r hr
    rcases dashRowFor_eq_some _ _ _ hrow with ⟨_, _, _, _, _, hint, _, h25, h35⟩
    have hn : ¬ dashMedian txs (r.suscripcion, r.importeR) < 0 :=
      not_lt.mpr (le_trans (by norm_num) h25)
    refine ⟨h25, h35, ?_, ?_⟩
    · rw [hint]
      unfold pyInt
      rw [if_neg hn]
      exact Int.le_floor.mpr (by exact_mod_cast h25)
    · rw [hint]
      unfold pyInt
      rw [if_neg hn]
      have hf : (↑⌊dashMedian txs (r.suscripcion, r.importeR)⌋ : ℚ) ≤ 35 :=
        le_trans (Int.floor_le _) h35
      exact_mod_cast hf
  · intro txs k hnot
    rw [List.filter_eq_nil_iff]
    intro r hr hbeq
    have hkey : r.suscripcion = k.fst ∧ r.importeR = k.snd := by simpa using hbeq
    have hrow := mem_dashboardSubs txs r hr
    rw [hkey.1, hkey.2] at hrow
    rcases dashRowFor_eq_some _ _ _ hrow with ⟨_, _, _, _, _, _, _, h25, h35⟩
    exact hnot ⟨h25, h35⟩

set_option maxHeartbeats 3200000 in
/-- Witness for C3: the 31/28-day Netflix cluster is inside the band; the
90-day cluster of the counterexample input is filtered to nothing. -/
theorem dash_monthly_band_only_witness :
    (25 ≤ dashMedian exC3w ("NETFLIX", mkRat (-1299) 100) ∧
     dashMedian exC3w ("NETFLIX", mkRat (-1299) 100) ≤ 35 ∧
     25 ≤ (29 : Int) ∧ (29 : Int) ≤ 35) ∧
    (dashboardSubs exC3).filter
      (fun r => r.suscripcion == "seguro coche anual" && r.importeR == -50) = [] :=
  by
  constructor
  · exact dash_monthly_band_only.1 exC3w
      ⟨"NETFLIX", mkRat (-1299) 100, 0, 59, 3, 29⟩ (by decide)
  · exact dash_monthly_band_only.2 exC3 ("seguro coche anual", -50)
      (of_decide_eq_true rfl)

/-! ## Claim C8 — two-occurrence clusters -/

/-- C8: a cluster with exactly 2 member transactions is absent from both
detectors' outputs: the dashboard needs at least 2 gaps (3 dates), and
`detect_subs` needs at least 3 distinct months, which 2 transactions
cannot supply. -/
theorem two_member_clusters_absent :
    (∀ (txs : List DTx) (k : String × ℚ), (dashGroup txs k).length = 2 →
      (dashboardSubs txs).filter
        (fun r => r.suscripcion == k.fst && r.importeR == k.snd) = []) ∧
    (∀ (rows : List SRow) (c : String),
      (subsGroup (pagosOf rows) c).length = 2 →
      (detect_subscriptions rows).filter (fun r => r.concepto == c) = []) := by
  constructor
  · intro txs k hlen
    rw [List.filter_eq_nil_iff]
    intro r hr hbeq
    have hkey : r.suscripcion = k.fst ∧ r.importeR = k.snd := by simpa using hbeq
    have hrow := mem_dashboardSubs txs r hr
    rw [hkey.1, hkey.2] at hrow
    rcases dashRowFor_eq_some _ _ _ hrow with ⟨_, _, _, _, _, _, h2, _⟩
    rw [consecDiffs_length, dashFechas_length, hlen] at h2
    omega
  · intro rows c hlen
    rw [List.filter_eq_nil_iff]
    intro r hr hbeq
    have hc : r.concepto = c := by simpa using hbeq
    rcases mem_detect_subscriptions rows r hr with ⟨hrow, h3⟩
    rcases subsRowFor_eq_some _ _ _ hrow with ⟨_, _, _, _, hcnt, _⟩
    have hle := subsMonths_le_group (pagosOf rows) r.concepto
    rw [hc, hlen] at hle
    rw [hc] at hcnt
    omega



/-- Witness for C8: concrete 2-occurrence clusters, absent from both
outputs. -/
theorem two_member_clusters_absent_witness :
    (dashboardSubs exC8d).filter
      (fun r => r.suscripcion == "NETFLIX" && r.importeR == mkRat (-1299) 100) = [] ∧
    (detect_subscriptions exC8s).filter (fun r => r.concepto == "netflix") = [] :=
  ⟨two_member_clusters_absent.1 exC8d ("NETFLIX", mkRat (-1299) 100) (by decide),
   two_member_clusters_absent.2 exC8s "netflix" (by decide)⟩

/-! ## Claim C4 — the amount-tolerance noise filter -/

/-- C4, counterexample: the specification's example cluster
[-9.99, -9.99, -10.49] with its spec-side mean ≈ -10.16: `detect_subs`
reports it with the *first* member's amount -9.99 (no standard-deviation
filter is consulted), and the dashboard splits it into sub-clusters by
amount and reports nothing at all. -/
theorem amount_tolerance_absent_cx :
    specMeanRound2 [mkRat (-999) 100, mkRat (-999) 100, mkRat (-1049) 100] =
      mkRat (-1016) 100 ∧
    detect_subscriptions exC4s =
      [⟨"netflix", mkRat (-999) 100, ⟨2024, 1, 5⟩, ⟨2024, 3, 5⟩, 3⟩] ∧
    mkRat (-999) 100 ≠ mkRat (-1016) 100 ∧
    dashboardSubs exC4d = [] := by
  refine ⟨?_, by decide, by decide, by decide⟩
  unfold specMeanRound2
  have h1 : (([mkRat (-999) 100, mkRat (-999) 100, mkRat (-1049) 100].sum /
      (([mkRat (-999) 100, mkRat (-999) 100, mkRat (-1049) 100].length : ℕ) : ℚ)) * 100
      + 1 / 2 : ℚ) = -6091/6 := by
    norm_num [List.sum_cons, List.sum_nil, Rat.mkRat_eq_div]
  rw [h1, show (⌊(-6091/6 : ℚ)⌋ : Int) = -1016 from by norm_num [Int.floor_eq_iff]]
  norm_num [Rat.mkRat_eq_div]

/-- C4, amended: neither detector has an amount-tolerance filter.
`detect_subs` accepts a cluster regardless of how dispersed its amounts
are and reports the first member's amount; in the dashboard every cluster
is amount-homogeneous by construction (the amount is part of the grouping
key), so no dispersion can ever arise inside a cluster. -/
theorem no_amount_tolerance :
    (∀ (rows : List SRow) (r : SubsRow), r ∈ detect_subscriptions rows →
      r.importe =
        (((subsGroup (pagosOf rows) r.concepto).head?).map (fun x => x.importe)).getD 0) ∧
    (∀ (txs : List DTx) (r : DashRow), r ∈ dashboardSubs txs →
      ∀ t ∈ dashGroup txs (r.suscripcion, r.importeR), t.importe = r.importeR) := by
  constructor
  · intro rows r h
    exact (subsRowFor_eq_some _ _ _ (mem_detect_subscriptions rows r h).1).2.1
  · intro txs r _ t ht
    exact (mem_dashGroup _ _ _ ht).2.2

set_option maxHeartbeats 3200000 in
/-- Witness for C4 at concrete clusters. -/
theorem no_amount_tolerance_witness :
    (SubsRow.mk "netflix" (mkRat (-999) 100) ⟨2024, 1, 5⟩ ⟨2024, 3, 5⟩ 3).importe =
      (((subsGroup (pagosOf exC4s) "netflix").head?).map (fun x => x.importe)).getD 0 ∧
    (DTx.mk "Spotify" (mkRat (-1099) 100) 5).importe = mkRat (-1099) 100 :=
  ⟨no_amount_tolerance.1 exC4s _ (by decide),
   no_amount_tolerance.2 exC4w ⟨"Spotify", mkRat (-1099) 100, 5, 65, 3, 30⟩
      (by decide) ⟨"Spotify", mkRat (-1099) 100, 5⟩ (by decide)⟩

/-! ## Claim C5 — report field contents -/

/-- C5, counterexample: a 4-transaction cluster spanning 3 distinct months
with amounts [-10, -20, -10, -10]: `detect_subs` reports amount -10 (the
first member), not the rounded mean -12.50, and count 3 (distinct
months), not the 4 member transactions. -/
theorem report_fields_diverge_cx :
    detect_subscriptions exC5 =
      [⟨"spotify ab", -10, ⟨2024, 1, 5⟩, ⟨2024, 3, 5⟩, 3⟩] ∧
    (subsGroup (pagosOf exC5) "spotify ab").length = 4 ∧
    specMeanRound2 ((subsGroup (pagosOf exC5) "spotify ab").map (fun r => r.importe)) =
      mkRat (-1250) 100 ∧
    ((-10 : ℚ) ≠ mkRat (-1250) 100 ∧ (3 : Nat) ≠ 4) := by
  refine ⟨by decide, by decide, ?_, by decide, by decide⟩
  have hm : (subsGroup (pagosOf exC5) "spotify ab").map (fun r => r.importe) =
      [(-10 : ℚ), -20, -10, -10] := by decide
  rw [hm]
  unfold specMeanRound2
  have h1 : (([(-10 : ℚ), -20, -10, -10].sum /
      ((([(-10 : ℚ), -20, -10, -10].length : ℕ)) : ℚ)) * 100 + 1 / 2 : ℚ) = -2499/2 := by
    norm_num [List.sum_cons, List.sum_nil]
  rw [h1, show (⌊(-2499/2 : ℚ)⌋ : Int) = -1250 from by norm_num [Int.floor_eq_iff]]
  norm_num [Rat.mkRat_eq_div]

/-- C5, amended: for every emitted report, `firstDate`/`lastDate` are the
min/max member dates in both detectors; the occurrence count is the
*distinct-month* count in `detect_subs` and the member count in the
dashboard; the reported amount is the first member's amount in
`detect_subs` (see C4) and the shared cluster amount in the dashboard. -/
theorem report_fields_characterization :
    (∀ (rows : List SRow) (r : SubsRow), r ∈ detect_subscriptions rows →
      r.count = (subsMonths (pagosOf rows) r.concepto).length ∧
      r.firstDate = minDateOf ((subsGroup (pagosOf rows) r.concepto).map (fun x => x.fecha)) ∧
      r.lastDate = maxDateOf ((subsGroup (pagosOf rows) r.concepto).map (fun x => x.fecha))) ∧
    (∀ (txs : List DTx) (r : DashRow), r ∈ dashboardSubs txs →
      r.veces = (dashGroup txs (r.suscripcion, r.importeR)).length ∧
      r.primerPago = (dashFechas txs (r.suscripcion, r.importeR)).headD 0 ∧
      r.ultimoPago = (dashFechas txs (r.suscripcion, r.importeR)).getLastD 0) := by
  constructor
  · intro rows r h
    rcases subsRowFor_eq_some _ _ _ (mem_detect_subscriptions rows r h).1 with
      ⟨_, _, h3, h4, h5, _⟩
    exact ⟨h5, h3, h4⟩
  · intro txs r h
    rcases dashRowFor_eq_some _ _ _ (mem_dashboardSubs txs r h) with
      ⟨_, _, h3, h4, h5, _⟩
    exact ⟨h3, h4, h5⟩

set_option maxHeartbeats 3200000 in
/-- Witness for C5 at concrete clusters. -/
theorem report_fields_characterization_witness :
    ((3 : Nat) = (subsMonths (pagosOf exC5) "spotify ab").length ∧
     (⟨2024, 1, 5⟩ : Date) =
       minDateOf ((subsGroup (pagosOf exC5) "spotify ab").map (fun x => x.fecha)) ∧
     (⟨2024, 3, 5⟩ : Date) =
       maxDateOf ((subsGroup (pagosOf exC5) "spotify ab").map (fun x => x.fecha))) ∧
    ((3 : Nat) = (dashGroup exC5d ("HBO Max", mkRat (-599) 100)).length ∧
     (10 : Int) = (dashFechas exC5d ("HBO Max", mkRat (-599) 100)).headD 0 ∧
     (71 : Int) = (dashFechas exC5d ("HBO Max", mkRat (-599) 100)).getLastD 0) :=
  ⟨report_fields_characterization.1 exC5
      ⟨"spotify ab", -10, ⟨2024, 1, 5⟩, ⟨2024, 3, 5⟩, 3⟩ (by decide),
   report_fields_characterization.2 exC5d
      ⟨"HBO Max", mkRat (-599) 100, 10, 71, 3, 30⟩ (by decide)⟩

/-! ## Claim C6 — the expense-only restriction -/

/-- C6, counterexample: a perfectly regular, all-positive (income) pattern
is reported by the dashboard's detection block — it applies no
`amount < 0` filter. -/
theorem positive_income_reported_cx :
    exC6.all (fun t => decide (0 < t.importe)) = true ∧
    dashboardSubs exC6 = [⟨"nomina empresa", 1200, 0, 60, 3, 30⟩] := by
  decide

/-- C6, amended: only `detect_subs` restricts to expenses (a transaction
set with no negative amount yields no report there); the dashboard's
block applies no sign filter — its acceptance of a cluster depends only
on the dates, so regular positive income is reported too. -/
theorem sign_filter_only_detect_subs :
    (∀ rows : List SRow, (∀ t ∈ rows, 0 ≤ t.importe) →
      detect_subscriptions rows = []) ∧
    (∀ (txs : List DTx) (k : String × ℚ),
      (dashRowFor txs k).isSome = true ↔
        (2 ≤ (consecDiffs (dashFechas txs k)).length ∧
         25 ≤ dashMedian txs k ∧ dashMedian txs k ≤ 35)) := by
  constructor
  · intro rows hpos
    have hnil : rows.filter (fun r => decide (r.importe < 0)) = [] := by
      rw [List.filter_eq_nil_iff]
      intro t ht hdec
      exact absurd (of_decide_eq_true hdec) (not_lt.mpr (hpos t ht))
    unfold detect_subscriptions pagosOf
    rw [hnil]
    rfl
  · intro txs k
    unfold dashRowFor
    by_cases h2 : 2 ≤ (consecDiffs (dashFechas txs k)).length
    · by_cases h3 : 25 ≤ dashMedian txs k ∧ dashMedian txs k ≤ 35
      · simp [h2, h3]
      · simp [h2, h3]
    · simp [h2]

set_option maxHeartbeats 3200000 in
/-- Witness for C6: an all-positive input for `detect_subs`, and the
accepted positive-income cluster of the dashboard. -/
theorem sign_filter_only_detect_subs_witness :
    detect_subscriptions exC6s = [] ∧
    (dashRowFor exC6 ("nomina empresa", 1200)).isSome = true :=
  ⟨sign_filter_only_detect_subs.1 exC6s (by decide),
   (sign_filter_only_detect_subs.2 exC6 ("nomina empresa", 1200)).mpr (by decide)⟩

end Asistente



